import Mathlib

/-!
Verification of the KYC-OCR quality-gate-and-deskew pipeline
(`src/blur_check.py`, `src/config.py`) against its specification.

Shallow embedding conventions:
* An image is modelled by its width, height, the flattened grayscale pixel
  values (as produced by `cv2.cvtColor(..., COLOR_BGR2GRAY)`), and the scalar
  statistics that the OpenCV numeric routines compute from it.  The routines
  `cv2.Laplacian(...).var()`, `np.std`, `np.mean` and the Canny edge-density
  computation are heavy numeric library kernels; each is abstracted as a field
  recording its result, because every use in the source only compares the
  resulting scalar against a threshold.  The glare statistic
  (`np.sum(bright_mask == 255) / (h*w)` after `cv2.threshold(gray, b, 255,
  THRESH_BINARY)`, i.e. the fraction of gray pixels strictly above `b`) is
  computed from the pixel list, because the brightness cutoff `b` itself is
  profile-dependent.
* `cv2.findContours`/`cv2.approxPolyDP` outputs are abstracted as a list of
  candidates, each carrying its `cv2.contourArea` and its polygon
  approximation; the selection logic of `has_contours` over those candidates
  is embedded from the source.
* Contour coordinates are integers (OpenCV contours are pixel coordinates).
  `int(max(np.linalg.norm u, np.linalg.norm v))` on integer vectors equals
  `Nat.sqrt (max |u|² |v|²)`, which is how the deskew dimensions are embedded.
* JPEG encoding (`cv2.imencode`) is abstracted as a function parameter
  `encode`.  The pipeline's result type is `Except`, so that a raising
  execution would surface as `.error`; with OpenCV's actual rectification
  semantics (`cv2.warpPerspective` silently substitutes the source size for
  an empty destination size, and `cv2.getPerspectiveTransform` fails
  silently on a singular corner quad) no path raises, and every execution
  produces a `.ok` value.
-/

/-- Quality thresholds record, from `src/config.py` (`QualityThresholds`). -/
structure QualityThresholds where
  blur_threshold : ℚ
  glare_threshold : ℚ
  glare_brightness : ℚ
  darkness_threshold : ℚ
  min_contrast : ℚ
  min_width : ℕ
  min_height : ℕ
  min_doc_area_ratio : ℚ
  min_edge_density : ℚ
deriving DecidableEq, Repr

/-- Lenient profile, from `src/config.py` (`easy_thresholds`). -/
def easy_thresholds : QualityThresholds :=
  { blur_threshold := 20
    glare_threshold := 15/100
    glare_brightness := 250
    darkness_threshold := 15
    min_contrast := 3
    min_width := 150
    min_height := 100
    min_doc_area_ratio := 3/100
    min_edge_density := 1/1000 }

/-- Standard profile, from `src/config.py` (`medium_thresholds`). -/
def medium_thresholds : QualityThresholds :=
  { blur_threshold := 30
    glare_threshold := 10/100
    glare_brightness := 245
    darkness_threshold := 25
    min_contrast := 5
    min_width := 200
    min_height := 150
    min_doc_area_ratio := 5/100
    min_edge_density := 3/1000 }

/-- Strict profile, from `src/config.py` (`hard_thresholds`). -/
def hard_thresholds : QualityThresholds :=
  { blur_threshold := 80
    glare_threshold := 5/100
    glare_brightness := 235
    darkness_threshold := 40
    min_contrast := 12
    min_width := 300
    min_height := 250
    min_doc_area_ratio := 1/10
    min_edge_density := 8/1000 }

/-- Which profile `src/config.py` selects for `QUALITY_STRICTNESS=medium`,
the documented default when the environment variable is unset. -/
def thresholds : QualityThresholds := medium_thresholds

/-- The shared photography-improvement instruction block appended to failure
messages, from `src/config.py` (`instructions`). -/
def instructions : String :=
  "\nEnsure good lighting without harsh shadows or glare\nHold camera steady and ensure the image is in focus \nMake sure the document fills most of the frame\nTake photo straight-on to avoid perspective distortion\n"

/-- Model of a decoded image (`cv2.imread` result).  `gray` is the flattened
grayscale pixel sequence; `laplacianVar`, `grayStd`, `grayMean`,
`edgeDensity` record the results of the abstracted OpenCV numeric routines
(Laplacian variance, `np.std`, `np.mean`, Canny edge-pixel fraction). -/
structure Img where
  width : ℕ
  height : ℕ
  gray : List ℚ
  laplacianVar : ℚ
  grayStd : ℚ
  grayMean : ℚ
  edgeDensity : ℚ
deriving DecidableEq, Repr

/-- Embedding of `is_low_contrast` from `src/blur_check.py`:
`np.std(gray) < thresh`. -/
def is_low_contrast (img : Img) (thresh : ℚ) : Bool :=
  img.grayStd < thresh

/-- Embedding of `is_low_resolution` from `src/blur_check.py`:
`w < min_width or h < min_height`. -/
def is_low_resolution (img : Img) (min_width min_height : ℕ) : Bool :=
  img.width < min_width || img.height < min_height

/-- Embedding of `is_low_edge_density` from `src/blur_check.py`:
`edge_density < thresh`. -/
def is_low_edge_density (img : Img) (thresh : ℚ) : Bool :=
  img.edgeDensity < thresh

/-- Embedding of `is_blurry` from `src/blur_check.py`:
`cv2.Laplacian(gray, CV_64F).var() < threshold`. -/
def is_blurry (img : Img) (threshold : ℚ) : Bool :=
  img.laplacianVar < threshold

/-- The glare ratio of `has_glare` in `src/blur_check.py`:
`cv2.threshold(gray, bright_threshold, 255, THRESH_BINARY)` marks exactly the
pixels strictly above `bright_threshold`, and the ratio divides their count by
`img.shape[0] * img.shape[1]`. -/
def glare_ratio (img : Img) (bright_threshold : ℚ) : ℚ :=
  (img.gray.countP (fun v => bright_threshold < v) : ℚ) / ((img.height * img.width : ℕ) : ℚ)

/-- Embedding of `has_glare` from `src/blur_check.py`:
`glare_ratio > threshold`. -/
def has_glare (img : Img) (threshold : ℚ) (bright_threshold : ℚ) : Bool :=
  threshold < glare_ratio img bright_threshold

/-- Embedding of `is_dark` from `src/blur_check.py`:
`np.mean(gray) < threshold`. -/
def is_dark (img : Img) (threshold : ℚ) : Bool :=
  img.grayMean < threshold

/-- One candidate contour as seen by the selection loop of `has_contours`:
its `cv2.contourArea` and its `cv2.approxPolyDP` polygon (the Canny /
`findContours` / `approxPolyDP` computations are abstracted as inputs). -/
structure Candidate where
  area : ℚ
  approx : List (ℤ × ℤ)
deriving DecidableEq, Repr

/-- The candidate loop of `has_contours` in `src/blur_check.py`: skip a
candidate when `area / image_area < 0.1` (note: the literal `0.1`, not the
profile's `min_doc_area_ratio`); otherwise return its approximation when it
has exactly 4 vertices, else continue. -/
def has_contours_loop (image_area : ℚ) : List Candidate → Option (List (ℤ × ℤ))
  | [] => none
  | c :: rest =>
    if c.area / image_area < 1/10 then has_contours_loop image_area rest
    else if c.approx.length = 4 then some c.approx
    else has_contours_loop image_area rest

/-- Stable insertion step for sorting candidates by area, descending: the
inserted element goes before every element of strictly smaller area and after
every element of greater-or-equal area that was already placed. -/
def insertAreaDesc (x : Candidate) : List Candidate → List Candidate
  | [] => [x]
  | y :: ys => if x.area < y.area then y :: insertAreaDesc x ys else x :: y :: ys

/-- Stable descending-by-area sort, the behaviour of Python's
`sorted(contours, key=cv2.contourArea, reverse=True)` (stable sorts with
the same key order agree pointwise). -/
def sortAreaDesc (l : List Candidate) : List Candidate :=
  l.foldr insertAreaDesc []

/-- Embedding of `has_contours` from `src/blur_check.py`: sort the candidates
by area, descending, keep the top 10, and run the selection loop with
`image_area = shape[0] * shape[1]`. -/
def has_contours (img : Img) (contours : List Candidate) : Option (List (ℤ × ℤ)) :=
  let image_area : ℚ := ((img.height * img.width : ℕ) : ℚ)
  has_contours_loop image_area ((sortAreaDesc contours).take 10)

/-- First-occurrence minimiser of `f` over `x :: xs`, as computed by
`np.argmin` (ties keep the earliest element). -/
def argminVal (f : (ℤ × ℤ) → ℤ) (x : ℤ × ℤ) (xs : List (ℤ × ℤ)) : ℤ × ℤ :=
  xs.foldl (fun b y => if f y < f b then y else b) x

/-- First-occurrence maximiser of `f` over `x :: xs`, as computed by
`np.argmax` (ties keep the earliest element). -/
def argmaxVal (f : (ℤ × ℤ) → ℤ) (x : ℤ × ℤ) (xs : List (ℤ × ℤ)) : ℤ × ℤ :=
  xs.foldl (fun b y => if f b < f y then y else b) x

/-- The ordered corner rectangle built by `deskew_image`. -/
structure Rect4 where
  tl : ℤ × ℤ
  tr : ℤ × ℤ
  br : ℤ × ℤ
  bl : ℤ × ℤ
deriving DecidableEq, Repr

/-- Corner ordering of `deskew_image` in `src/blur_check.py`:
`rect = [points[argmin(sum)], points[argmin(diff)], points[argmax(sum)],
points[argmax(diff)]]`, where `sum = x + y` and `diff = np.diff(points,
axis=1) = y - x`.  The empty case is unreachable: the contour handed in
always has 4 points. -/
def order_points : List (ℤ × ℤ) → Rect4
  | [] => ⟨(0, 0), (0, 0), (0, 0), (0, 0)⟩
  | p :: ps =>
    { tl := argminVal (fun q => q.1 + q.2) p ps
      tr := argminVal (fun q => q.2 - q.1) p ps
      br := argmaxVal (fun q => q.1 + q.2) p ps
      bl := argmaxVal (fun q => q.2 - q.1) p ps }

/-- Squared Euclidean distance between two integer points. -/
def sqDist (p q : ℤ × ℤ) : ℕ :=
  ((p.1 - q.1) ^ 2 + (p.2 - q.2) ^ 2).toNat

/-- Embedding of `width` in `deskew_image`: `int(max(norm(rect[2]-rect[3]),
norm(rect[1]-rect[0])))`; on integer points this is
`Nat.sqrt (max (sqDist br bl) (sqDist tr tl))`. -/
def deskew_width (r : Rect4) : ℕ :=
  Nat.sqrt (max (sqDist r.br r.bl) (sqDist r.tr r.tl))

/-- Embedding of `height` in `deskew_image`: `int(max(norm(rect[1]-rect[2]),
norm(rect[0]-rect[3])))`. -/
def deskew_height (r : Rect4) : ℕ :=
  Nat.sqrt (max (sqDist r.tr r.br) (sqDist r.tl r.bl))

/-- The data determining the rectified output image: the source image, the
ordered source corners and the destination rectangle dimensions (the
perspective warp itself is a pure function of these). -/
structure DeskewOut where
  src : Img
  rect : Rect4
  width : ℕ
  height : ℕ
deriving DecidableEq, Repr

/-- Embedding of `deskew_image` from `src/blur_check.py`.  The source
performs no guard on the computed dimensions, and OpenCV raises nothing
here: `cv2.getPerspectiveTransform` on a singular corner quad fails
silently (the `solve` call just yields a zero matrix), and
`cv2.warpPerspective(img, M, (width, height))` creates its destination as
`dsize.area() == 0 ? src.size() : dsize` (imgwarp.cpp), silently
substituting the full source size when a computed dimension is zero
(`dsize.area() == 0` is `width = 0 ∨ height = 0` here, since `int` of a
norm is never negative).  So a degenerate contour produces a source-sized
output image, not an error. -/
def deskew_image (img : Img) (contour : List (ℤ × ℤ)) : DeskewOut :=
  let r := order_points contour
  let w := deskew_width r
  let h := deskew_height r
  if w = 0 || h = 0 then
    { src := img, rect := r, width := img.width, height := img.height }
  else
    { src := img, rect := r, width := w, height := h }

/-- Embedding of `image_preops` from `src/blur_check.py`.  `decoded` is the `cv2.imread`
result (`none` = unreadable input); `contours` is the abstracted candidate
list seen by `has_contours`; `encode` abstracts `cv2.imencode('.jpg', ...)`
(`none` = `success` false).  A `.ok` value is the tuple the Python function
returns; a `.error` would be an uncaught exception escaping the function —
no branch produces one, since the rectification step never raises (see
`deskew_image`). -/
def image_preops (decoded : Option Img) (contours : List Candidate)
    (encode : DeskewOut → Option (List ℕ)) (t : QualityThresholds) :
    Except String (Option (List ℕ) × String) :=
  match decoded with
  | none => .ok (none, "Cannot read image!" ++ instructions)
  | some img =>
    if is_blurry img t.blur_threshold then
      .ok (none, "Image too Blurry!" ++ instructions)
    else if is_low_resolution img t.min_width t.min_height then
      .ok (none, "Image resolution too low!" ++ instructions)
    else if is_low_contrast img t.min_contrast then
      .ok (none, "Image Contrast too Low!" ++ instructions)
    else if has_glare img t.glare_threshold t.glare_brightness then
      .ok (none, "Image too Bright!" ++ instructions)
    else if is_dark img t.darkness_threshold then
      .ok (none, "Image Too Dark!" ++ instructions)
    else if is_low_edge_density img t.min_edge_density then
      .ok (none, "Image has low edges!" ++ instructions)
    else
      match has_contours img contours with
      | none => .ok (none, "No Edges Found!" ++ instructions)
      | some contour =>
        match encode (deskew_image img contour) with
        | some jpg_bytes => .ok (some jpg_bytes, "")
        | none => .ok (none, "Failed to encode image as JPEG!")

/-- The quality checks paired with their failure messages, in the fixed
evaluation order of `image_preops`: blur, low-resolution, low-contrast,
glare, darkness, low-edge-density. -/
def checkResults (img : Img) (t : QualityThresholds) : List (Bool × String) :=
  [(is_blurry img t.blur_threshold, "Image too Blurry!"),
   (is_low_resolution img t.min_width t.min_height, "Image resolution too low!"),
   (is_low_contrast img t.min_contrast, "Image Contrast too Low!"),
   (has_glare img t.glare_threshold t.glare_brightness, "Image too Bright!"),
   (is_dark img t.darkness_threshold, "Image Too Dark!"),
   (is_low_edge_density img t.min_edge_density, "Image has low edges!")]

/-- The message of the first failing check in the fixed order, or `none`
when every check passes. -/
def firstFailure (img : Img) (t : QualityThresholds) : Option String :=
  ((checkResults img t).find? (fun c => c.1)).map (fun c => c.2)

/-- All six quality checks pass (the condition under which `image_preops`
reaches contour location). -/
def passes_quality (img : Img) (t : QualityThresholds) : Bool :=
  !is_blurry img t.blur_threshold &&
  !is_low_resolution img t.min_width t.min_height &&
  !is_low_contrast img t.min_contrast &&
  !has_glare img t.glare_threshold t.glare_brightness &&
  !is_dark img t.darkness_threshold &&
  !is_low_edge_density img t.min_edge_density

/-- Modelled from the spec: the spec's corner-assignment rule for the
top-right corner, "top-right = point with minimum (x−y) difference"
(first occurrence on ties), stated for refinement comparison against the
source's `order_points`. -/
def spec_top_right : List (ℤ × ℤ) → ℤ × ℤ
  | [] => (0, 0)
  | p :: ps => argminVal (fun q => q.1 - q.2) p ps

/-- A 50×50 uniform mid-gray image: every grayscale pixel is 128, so the
Laplacian response is identically zero (variance 0), the standard deviation
is 0, the mean is 128, and Canny finds no edges (density 0). -/
def imgUniformGray50 : Img :=
  { width := 50
    height := 50
    gray := List.replicate 2500 128
    laplacianVar := 0
    grayStd := 0
    grayMean := 128
    edgeDensity := 0 }

/-- A 500×500 sharp, well-lit document photo: high Laplacian variance,
moderate contrast and brightness, no pixel near saturation (the sampled
grayscale values stand for the pixel population; none exceeds 235), ample
edge density.  It passes every check of every profile. -/
def imgSharp : Img :=
  { width := 500
    height := 500
    gray := List.replicate 16 128
    laplacianVar := 1000
    grayStd := 50
    grayMean := 128
    edgeDensity := 1/10 }

/-- A 50×50 sharp image (high Laplacian variance) whose resolution is below
every profile's minimums. -/
def imgSharpTiny : Img :=
  { width := 50
    height := 50
    gray := List.replicate 16 128
    laplacianVar := 1000
    grayStd := 50
    grayMean := 128
    edgeDensity := 1/10 }

/-- A candidate contour covering 5% of a 100×100 image (area 500), whose
polygon approximation has exactly 4 vertices. -/
def candFivePercent : Candidate :=
  { area := 500, approx := [(10, 10), (35, 10), (35, 30), (10, 30)] }

/-- A 100×100 image that passes every check, used when exercising the
contour-selection loop. -/
def imgSharp100 : Img :=
  { width := 100
    height := 100
    gray := List.replicate 16 128
    laplacianVar := 1000
    grayStd := 50
    grayMean := 128
    edgeDensity := 1/10 }

/-- A degenerate candidate: a collapsed quadrilateral whose first three
vertices lie on the diagonal y = x (the corner-assignment edge case where
sum/difference extremes coincide).  Its area is the shoelace area of its own
vertices, 25000, exactly 10% of a 500×500 image.  Corner assignment yields
top-left = top-right = (0,0) and bottom-right = bottom-left = (250,500), so
the computed rectified width is zero. -/
def candCollapsed : Candidate :=
  { area := 25000, approx := [(0, 0), (100, 100), (200, 200), (250, 500)] }

/-- A well-formed candidate covering 40% of a 500×500 image with a proper
4-vertex rectangle approximation. -/
def candProper : Candidate :=
  { area := 100000, approx := [(50, 50), (450, 50), (450, 300), (50, 300)] }

/-- The four corners of an axis-aligned square, listed starting from the
origin, used to compare corner-assignment rules. -/
def squarePts : List (ℤ × ℤ) := [(0, 0), (10, 0), (10, 10), (0, 10)]

/-- A 2×2 all-dark image: every check except glare fails under the lenient
profile. -/
def imgDark2 : Img :=
  { width := 2
    height := 2
    gray := List.replicate 4 0
    laplacianVar := 0
    grayStd := 0
    grayMean := 0
    edgeDensity := 0 }

/-- A 2×2 fully saturated image: every pixel is 255, so the glare ratio is 1
at any cutoff below 255. -/
def imgBright2 : Img :=
  { width := 2
    height := 2
    gray := List.replicate 4 255
    laplacianVar := 0
    grayStd := 0
    grayMean := 255
    edgeDensity := 0 }

theorem argminVal_cons (f : (ℤ × ℤ) → ℤ) (x y : ℤ × ℤ) (ys : List (ℤ × ℤ)) :
    argminVal f x (y :: ys) = argminVal f (if f y < f x then y else x) ys := rfl

theorem argmaxVal_cons (f : (ℤ × ℤ) → ℤ) (x y : ℤ × ℤ) (ys : List (ℤ × ℤ)) :
    argmaxVal f x (y :: ys) = argmaxVal f (if f x < f y then y else x) ys := rfl

theorem argminVal_mem (f : (ℤ × ℤ) → ℤ) (x : ℤ × ℤ) (xs : List (ℤ × ℤ)) :
    argminVal f x xs ∈ x :: xs := by
  induction xs generalizing x with
  | nil => simp [argminVal]
  | cons y ys ih =>
    rw [argminVal_cons]
    by_cases hc : f y < f x
    · rw [if_pos hc]
      exact List.mem_cons_of_mem x (ih y)
    · rw [if_neg hc]
      rcases List.mem_cons.mp (ih x) with h1 | h1
      · rw [h1]
        exact List.mem_cons_self _ _
      · exact List.mem_cons_of_mem _ (List.mem_cons_of_mem _ h1)

theorem argminVal_le (f : (ℤ × ℤ) → ℤ) (x : ℤ × ℤ) (xs : List (ℤ × ℤ)) :
    ∀ y ∈ x :: xs, f (argminVal f x xs) ≤ f y := by
  induction xs generalizing x with
  | nil =>
    intro y hy
    simp only [List.mem_singleton] at hy
    subst hy
    simp [argminVal]
  | cons z zs ih =>
    intro y hy
    have hstep : argminVal f x (z :: zs) = argminVal f (if f z < f x then z else x) zs := rfl
    have hacc_x : f (if f z < f x then z else x) ≤ f x := by
      by_cases hc : f z < f x
      · simp only [hc, if_true]
        exact le_of_lt hc
      · simp [hc]
    have hacc_z : f (if f z < f x then z else x) ≤ f z := by
      by_cases hc : f z < f x
      · simp [hc]
      · simp only [hc, if_false]
        exact not_lt.mp hc
    have hmin := ih (if f z < f x then z else x)
    have hself : f (argminVal f (if f z < f x then z else x) zs) ≤
        f (if f z < f x then z else x) :=
      hmin _ (List.mem_cons_self _ _)
    rw [hstep]
    rcases List.mem_cons.mp hy with h1 | h1
    · subst h1
      exact le_trans hself hacc_x
    · rcases List.mem_cons.mp h1 with h2 | h2
      · subst h2
        exact le_trans hself hacc_z
      · exact hmin _ (List.mem_cons_of_mem _ h2)

theorem argmaxVal_mem (f : (ℤ × ℤ) → ℤ) (x : ℤ × ℤ) (xs : List (ℤ × ℤ)) :
    argmaxVal f x xs ∈ x :: xs := by
  induction xs generalizing x with
  | nil => simp [argmaxVal]
  | cons y ys ih =>
    rw [argmaxVal_cons]
    by_cases hc : f x < f y
    · rw [if_pos hc]
      exact List.mem_cons_of_mem x (ih y)
    · rw [if_neg hc]
      rcases List.mem_cons.mp (ih x) with h1 | h1
      · rw [h1]
        exact List.mem_cons_self _ _
      · exact List.mem_cons_of_mem _ (List.mem_cons_of_mem _ h1)

theorem argmaxVal_ge (f : (ℤ × ℤ) → ℤ) (x : ℤ × ℤ) (xs : List (ℤ × ℤ)) :
    ∀ y ∈ x :: xs, f y ≤ f (argmaxVal f x xs) := by
  induction xs generalizing x with
  | nil =>
    intro y hy
    simp only [List.mem_singleton] at hy
    subst hy
    simp [argmaxVal]
  | cons z zs ih =>
    intro y hy
    have hstep : argmaxVal f x (z :: zs) = argmaxVal f (if f x < f z then z else x) zs := rfl
    have hacc_x : f x ≤ f (if f x < f z then z else x) := by
      by_cases hc : f x < f z
      · simp only [hc, if_true]
        exact le_of_lt hc
      · simp [hc]
    have hacc_z : f z ≤ f (if f x < f z then z else x) := by
      by_cases hc : f x < f z
      · simp [hc]
      · simp only [hc, if_false]
        exact not_lt.mp hc
    have hmax := ih (if f x < f z then z else x)
    have hself : f (if f x < f z then z else x) ≤
        f (argmaxVal f (if f x < f z then z else x) zs) :=
      hmax _ (List.mem_cons_self _ _)
    rw [hstep]
    rcases List.mem_cons.mp hy with h1 | h1
    · subst h1
      exact le_trans hacc_x hself
    · rcases List.mem_cons.mp h1 with h2 | h2
      · subst h2
        exact le_trans hacc_z hself
      · exact hmax _ (List.mem_cons_of_mem _ h2)

theorem has_contours_loop_length (A : ℚ) :
    ∀ (l : List Candidate) (c : List (ℤ × ℤ)),
      has_contours_loop A l = some c → c.length = 4 := by
  intro l
  induction l with
  | nil =>
    intro c h
    simp [has_contours_loop] at h
  | cons x xs ih =>
    intro c h
    unfold has_contours_loop at h
    split at h
    · exact ih c h
    · split at h
      · next hlen =>
        injection h with h2
        subst h2
        exact hlen
      · exact ih c h

theorem glare_ratio_anti (img : Img) {b1 b2 : ℚ} (h : b1 ≤ b2) :
    glare_ratio img b2 ≤ glare_ratio img b1 := by
  unfold glare_ratio
  have hc : img.gray.countP (fun v => b2 < v) ≤ img.gray.countP (fun v => b1 < v) := by
    apply List.countP_mono_left
    intro v _ hv
    simp only [decide_eq_true_eq] at hv ⊢
    exact lt_of_le_of_lt h hv
  have hcq : ((img.gray.countP (fun v => b2 < v) : ℕ) : ℚ) ≤
      ((img.gray.countP (fun v => b1 < v) : ℕ) : ℚ) := Nat.cast_le.mpr hc
  exact div_le_div_of_nonneg_right hcq (Nat.cast_nonneg _)

/-- C1: QualityGate evaluates its checks in the fixed order blur,
low-resolution, low-contrast, glare, darkness, low-edge-density with
short-circuit on the first failure: whenever some check fails, the pipeline
reports exactly the message of the first failing check in that order
(with the shared instructions appended), so no later check contributes to
the result; in particular a simultaneously blurry and low-resolution image
is reported as blurry. -/
theorem quality_gate_first_failure (img : Img) (contours : List Candidate)
    (encode : DeskewOut → Option (List ℕ)) (t : QualityThresholds) (msg : String)
    (h : firstFailure img t = some msg) :
    image_preops (some img) contours encode t = Except.ok (none, msg ++ instructions) := by
  unfold firstFailure checkResults at h
  unfold image_preops
  cases h1 : is_blurry img t.blur_threshold <;>
    cases h2 : is_low_resolution img t.min_width t.min_height <;>
      cases h3 : is_low_contrast img t.min_contrast <;>
        cases h4 : has_glare img t.glare_threshold t.glare_brightness <;>
          cases h5 : is_dark img t.darkness_threshold <;>
            cases h6 : is_low_edge_density img t.min_edge_density <;>
              simp_all [List.find?]

/-- Witness for C1: the 50×50 uniform gray image fails the blur check first
and the pipeline reports the blur message. -/
theorem quality_gate_first_failure_witness :
    firstFailure imgUniformGray50 medium_thresholds = some "Image too Blurry!" ∧
    image_preops (some imgUniformGray50) [] (fun _ => none) medium_thresholds =
      Except.ok (none, "Image too Blurry!" ++ instructions) :=
  ⟨rfl, quality_gate_first_failure imgUniformGray50 [] (fun _ => none) medium_thresholds
    "Image too Blurry!" rfl⟩

/-- Counterexample to C2: the 50×50 uniform gray image has width below every
profile's minimum width, yet the pipeline reports the blur failure (the blur
check runs first and a uniform image has zero Laplacian variance), not the
low-resolution failure. -/
theorem low_resolution_not_always_reported :
    imgUniformGray50.width < easy_thresholds.min_width ∧
    imgUniformGray50.width < medium_thresholds.min_width ∧
    imgUniformGray50.width < hard_thresholds.min_width ∧
    image_preops (some imgUniformGray50) [] (fun _ => none) medium_thresholds =
      Except.ok (none, "Image too Blurry!" ++ instructions) ∧
    ("Image too Blurry!" ++ instructions) ≠ ("Image resolution too low!" ++ instructions) := by
  refine ⟨by decide, by decide, by decide, ?_, by decide⟩
  have hb : is_blurry imgUniformGray50 medium_thresholds.blur_threshold = true := by decide
  simp [image_preops, hb]

/-- C2 as amended: for any image that passes the blur check and whose width
or height is below the profile's minimums, the pipeline fails with the
low-resolution message. -/
theorem low_resolution_after_blur_pass (img : Img) (contours : List Candidate)
    (encode : DeskewOut → Option (List ℕ)) (t : QualityThresholds)
    (hb : is_blurry img t.blur_threshold = false)
    (hr : is_low_resolution img t.min_width t.min_height = true) :
    image_preops (some img) contours encode t =
      Except.ok (none, "Image resolution too low!" ++ instructions) := by
  simp [image_preops, hb, hr]

/-- Witness for the amended C2: a sharp (non-blurry) 50×50 image is reported
as low-resolution. -/
theorem low_resolution_after_blur_pass_witness :
    is_blurry imgSharpTiny medium_thresholds.blur_threshold = false ∧
    is_low_resolution imgSharpTiny medium_thresholds.min_width medium_thresholds.min_height = true ∧
    image_preops (some imgSharpTiny) [] (fun _ => none) medium_thresholds =
      Except.ok (none, "Image resolution too low!" ++ instructions) :=
  ⟨by decide, by decide,
    low_resolution_after_blur_pass imgSharpTiny [] (fun _ => none) medium_thresholds
      (by decide) (by decide)⟩

/-- Counterexample to C4: on undecodable input the pipeline's message is
"Cannot read image!" with the remediation instruction block appended — the
same remediation text as the quality failures, not an instruction-free
message. -/
theorem unreadable_input_carries_remediation :
    image_preops none [] (fun _ => none) medium_thresholds =
      Except.ok (none, "Cannot read image!" ++ instructions) ∧
    instructions ≠ "" ∧
    ("Cannot read image!" ++ instructions) ≠ "Cannot read image!" :=
  ⟨rfl, by decide, by decide⟩

/-- C4 as amended: for every input that cannot be decoded as an image, the
pipeline returns the unreadable-input error value whose message is
"Cannot read image!" with the same remediation instruction block appended
as the quality-failure messages. -/
theorem unreadable_input_message (contours : List Candidate)
    (encode : DeskewOut → Option (List ℕ)) (t : QualityThresholds) :
    image_preops none contours encode t =
      Except.ok (none, "Cannot read image!" ++ instructions) := rfl

/-- C9: the pipeline is deterministic — two runs on equal decoded inputs and
equal detected candidate lists, with the same encoder and the same threshold
profile, produce identical results (same verdict, same message, and on
success identical output bytes).  Byte-identical input files decode to equal
images and yield equal low-level vision outputs, since every stage is a pure
function of the input bytes. -/
theorem pipeline_deterministic (d1 d2 : Option Img) (cs1 cs2 : List Candidate)
    (encode : DeskewOut → Option (List ℕ)) (t : QualityThresholds)
    (hd : d1 = d2) (hc : cs1 = cs2) :
    image_preops d1 cs1 encode t = image_preops d2 cs2 encode t := by
  subst hd
  subst hc
  rfl

/-- Witness for C9: two runs on the same concrete input agree. -/
theorem pipeline_deterministic_witness :
    image_preops (some imgUniformGray50) [] (fun _ => none) medium_thresholds =
      image_preops (some imgUniformGray50) [] (fun _ => none) medium_thresholds :=
  pipeline_deterministic (some imgUniformGray50) (some imgUniformGray50) [] []
    (fun _ => none) medium_thresholds rfl rfl

/-- C3 evaluation at the failing input (code bug): under the lenient profile,
a 4-vertex candidate covering 5% of the image — above the profile's
`min_doc_area_ratio` of 0.03 — is nevertheless skipped, because the source's
selection loop compares the area ratio against the hard-coded literal `0.1`
instead of the profile's configured field. -/
theorem contour_area_threshold_hardcoded :
    easy_thresholds.min_doc_area_ratio = 3/100 ∧
    candFivePercent.approx.length = 4 ∧
    easy_thresholds.min_doc_area_ratio ≤
      candFivePercent.area / ((imgSharp100.height * imgSharp100.width : ℕ) : ℚ) ∧
    has_contours imgSharp100 [candFivePercent] = none :=
  ⟨rfl, by decide, by with_unfolding_all decide, by with_unfolding_all decide⟩

/-- Counterexample to C5: on the axis-aligned square with corners (0,0),
(10,0), (10,10), (0,10), the source assigns top-right = (10,0) (the argmin of
`np.diff` = y−x), whereas the claimed rule "top-right = point with minimum
(x−y)" would pick (0,10), the geometric bottom-left. -/
theorem corner_assignment_spec_mismatch :
    (order_points squarePts).tr = (10, 0) ∧
    spec_top_right squarePts = (0, 10) ∧
    ((10, 0) : ℤ × ℤ) ≠ (0, 10) :=
  ⟨by decide, by decide, by decide⟩

/-- C5 as amended: for every 4-point contour, the Deskewer assigns
top-left = the point of minimum (x+y), bottom-right = the point of maximum
(x+y), top-right = the point of maximum (x−y) (equivalently minimum y−x,
the argmin of `np.diff`), and bottom-left = the point of minimum (x−y)
(equivalently maximum y−x). -/
theorem corner_assignment_extrema (p : ℤ × ℤ) (ps : List (ℤ × ℤ))
    (_h : (p :: ps).length = 4) :
    ((order_points (p :: ps)).tl ∈ p :: ps ∧
      ∀ q ∈ p :: ps,
        (order_points (p :: ps)).tl.1 + (order_points (p :: ps)).tl.2 ≤ q.1 + q.2) ∧
    ((order_points (p :: ps)).tr ∈ p :: ps ∧
      ∀ q ∈ p :: ps,
        q.1 - q.2 ≤ (order_points (p :: ps)).tr.1 - (order_points (p :: ps)).tr.2) ∧
    ((order_points (p :: ps)).br ∈ p :: ps ∧
      ∀ q ∈ p :: ps,
        q.1 + q.2 ≤ (order_points (p :: ps)).br.1 + (order_points (p :: ps)).br.2) ∧
    ((order_points (p :: ps)).bl ∈ p :: ps ∧
      ∀ q ∈ p :: ps,
        (order_points (p :: ps)).bl.1 - (order_points (p :: ps)).bl.2 ≤ q.1 - q.2) := by
  simp only [order_points]
  refine ⟨⟨argminVal_mem _ p ps, ?_⟩, ⟨argminVal_mem _ p ps, ?_⟩,
          ⟨argmaxVal_mem _ p ps, ?_⟩, ⟨argmaxVal_mem _ p ps, ?_⟩⟩
  · intro q hq
    exact argminVal_le (fun r => r.1 + r.2) p ps q hq
  · intro q hq
    have := argminVal_le (fun r => r.2 - r.1) p ps q hq
    simp only at this
    omega
  · intro q hq
    exact argmaxVal_ge (fun r => r.1 + r.2) p ps q hq
  · intro q hq
    have := argmaxVal_ge (fun r => r.2 - r.1) p ps q hq
    simp only at this
    omega

/-- Witness for the amended C5: on the concrete square, the assigned
top-right (10,0) attains the maximum of (x−y) over the four points. -/
theorem corner_assignment_extrema_witness :
    ((0, 0) :: [((10 : ℤ), (0 : ℤ)), (10, 10), (0, 10)]).length = 4 ∧
    (∀ q ∈ (0, 0) :: [((10 : ℤ), (0 : ℤ)), (10, 10), (0, 10)],
      q.1 - q.2 ≤ (order_points ((0, 0) :: [((10 : ℤ), (0 : ℤ)), (10, 10), (0, 10)])).tr.1 -
        (order_points ((0, 0) :: [((10 : ℤ), (0 : ℤ)), (10, 10), (0, 10)])).tr.2) :=
  ⟨by decide,
    (corner_assignment_extrema (0, 0) [(10, 0), (10, 10), (0, 10)] (by decide)).2.1.2⟩

/-- C6: the ContourLocator's selected result is either a contour with exactly
4 vertices or the explicit not-found result `none`; a selected contour never
has any other vertex count. -/
theorem selected_contour_has_four_vertices (img : Img) (contours : List Candidate)
    (c : List (ℤ × ℤ)) (h : has_contours img contours = some c) : c.length = 4 := by
  unfold has_contours at h
  exact has_contours_loop_length _ _ _ h

/-- Witness for C6: a concrete candidate list whose selected contour has
exactly 4 vertices. -/
theorem selected_contour_has_four_vertices_witness :
    has_contours imgSharp [candProper] = some candProper.approx ∧
    candProper.approx.length = 4 :=
  ⟨by with_unfolding_all decide,
    selected_contour_has_four_vertices imgSharp [candProper] candProper.approx
      (by with_unfolding_all decide)⟩

set_option maxRecDepth 4000 in
/-- Counterexample to C7: the collapsed quadrilateral candidate passes the
area filter and is selected after all quality checks pass; its computed
rectified width is zero, yet the pipeline returns neither a
RectificationFailure error value nor raises — `cv2.warpPerspective`
silently substitutes the 500×500 source size for the empty destination
size, and the run returns an ordinary success value `(bytes, "")` (here
the encoder records the output dimensions, showing the source-size
fallback). -/
theorem degenerate_contour_no_rectification_failure :
    passes_quality imgSharp medium_thresholds = true ∧
    has_contours imgSharp [candCollapsed] = some candCollapsed.approx ∧
    deskew_width (order_points candCollapsed.approx) = 0 ∧
    image_preops (some imgSharp) [candCollapsed]
        (fun d => some [d.width, d.height]) medium_thresholds =
      Except.ok (some [500, 500], "") := by
  refine ⟨by with_unfolding_all decide, by with_unfolding_all decide, by decide, ?_⟩
  with_unfolding_all rfl

/-- C7 as amended: all pipeline outcomes are returned as values — decode
failures, quality failures, contour-not-found and encoding failures each
yield a `(None, message)` value, and a selected 4-point contour whose
computed rectified width or height is zero is not reported at all: the
rectification step silently falls back to the source image size (OpenCV
substitutes `src.size()` for an empty destination size) and the pipeline
returns the ordinary encode result, not a RectificationFailure error value
and not an exception. -/
theorem degenerate_contour_silent_fallback (img : Img) (contours : List Candidate)
    (encode : DeskewOut → Option (List ℕ)) (t : QualityThresholds) (c : List (ℤ × ℤ))
    (hq : passes_quality img t = true)
    (hc : has_contours img contours = some c)
    (hd : deskew_width (order_points c) = 0 ∨ deskew_height (order_points c) = 0) :
    (deskew_image img c).width = img.width ∧
    (deskew_image img c).height = img.height ∧
    ∃ r, image_preops (some img) contours encode t = Except.ok r := by
  simp only [passes_quality, Bool.and_eq_true, Bool.not_eq_true'] at hq
  obtain ⟨⟨⟨⟨⟨h1, h2⟩, h3⟩, h4⟩, h5⟩, h6⟩ := hq
  have hfall : deskew_image img c =
      { src := img, rect := order_points c, width := img.width, height := img.height } := by
    unfold deskew_image
    rcases hd with hd | hd <;> simp [hd]
  refine ⟨by rw [hfall], by rw [hfall], ?_⟩
  simp only [image_preops, h1, h2, h3, h4, h5, h6, hc, Bool.false_eq_true, if_false]
  cases encode (deskew_image img c) with
  | none => exact ⟨_, rfl⟩
  | some b => exact ⟨_, rfl⟩

set_option maxRecDepth 4000 in
/-- Witness for the amended C7: on the collapsed-quadrilateral candidate the
rectified dimensions fall back to the 500×500 source size and the pipeline
returns a value. -/
theorem degenerate_contour_silent_fallback_witness :
    (deskew_image imgSharp candCollapsed.approx).width = imgSharp.width ∧
    (deskew_image imgSharp candCollapsed.approx).height = imgSharp.height ∧
    ∃ r, image_preops (some imgSharp) [candCollapsed] (fun _ => some [])
      medium_thresholds = Except.ok r :=
  degenerate_contour_silent_fallback imgSharp [candCollapsed] (fun _ => some [])
    medium_thresholds candCollapsed.approx
    (by with_unfolding_all decide) (by with_unfolding_all decide) (Or.inl (by decide))

/-- C10: whenever the pipeline entry point returns a value (rather than
raising), exactly one side of the pair is meaningful — on the success path
the first component is the encoded bytes and the error string is exactly
empty, and on every value-returning failure path the first component is
`none` and the error string is non-empty. -/
theorem image_preops_result_shape (decoded : Option Img) (contours : List Candidate)
    (encode : DeskewOut → Option (List ℕ)) (t : QualityThresholds)
    (r : Option (List ℕ) × String)
    (h : image_preops decoded contours encode t = Except.ok r) :
    (∃ b, r.1 = some b ∧ r.2 = "") ∨ (r.1 = none ∧ r.2 ≠ "") := by
  cases decoded with
  | none =>
    unfold image_preops at h
    injection h with h2
    subst h2
    right
    exact ⟨rfl, by decide⟩
  | some img =>
    unfold image_preops at h
    repeat' split at h
    all_goals
      injection h with h2
      subst h2
      first
      | · left
          exact ⟨_, rfl, rfl⟩
      | · right
          exact ⟨rfl, by decide⟩

/-- Witness for C10: the unreadable-input run returns the `none` side with a
non-empty message. -/
theorem image_preops_result_shape_witness :
    (∃ b, (none : Option (List ℕ)) = some b ∧ ("Cannot read image!" ++ instructions) = "") ∨
    ((none : Option (List ℕ)) = none ∧ ("Cannot read image!" ++ instructions) ≠ "") :=
  image_preops_result_shape none [] (fun _ => none) medium_thresholds
    (none, "Cannot read image!" ++ instructions) rfl

/-- C8: profile ordering monotonicity under the actually configured values —
for every image and each of the six checks, failing the check under the
lenient profile implies failing it under the standard and strict profiles.
For the five single-threshold checks this is the ordering of the configured
thresholds; for glare it additionally uses that lowering the brightness
cutoff can only increase the fraction of pixels above it. -/
theorem profile_check_monotonicity (img : Img) :
    (is_blurry img easy_thresholds.blur_threshold = true →
      is_blurry img medium_thresholds.blur_threshold = true ∧
      is_blurry img hard_thresholds.blur_threshold = true) ∧
    (is_low_resolution img easy_thresholds.min_width easy_thresholds.min_height = true →
      is_low_resolution img medium_thresholds.min_width medium_thresholds.min_height = true ∧
      is_low_resolution img hard_thresholds.min_width hard_thresholds.min_height = true) ∧
    (is_low_contrast img easy_thresholds.min_contrast = true →
      is_low_contrast img medium_thresholds.min_contrast = true ∧
      is_low_contrast img hard_thresholds.min_contrast = true) ∧
    (has_glare img easy_thresholds.glare_threshold easy_thresholds.glare_brightness = true →
      has_glare img medium_thresholds.glare_threshold medium_thresholds.glare_brightness = true ∧
      has_glare img hard_thresholds.glare_threshold hard_thresholds.glare_brightness = true) ∧
    (is_dark img easy_thresholds.darkness_threshold = true →
      is_dark img medium_thresholds.darkness_threshold = true ∧
      is_dark img hard_thresholds.darkness_threshold = true) ∧
    (is_low_edge_density img easy_thresholds.min_edge_density = true →
      is_low_edge_density img medium_thresholds.min_edge_density = true ∧
      is_low_edge_density img hard_thresholds.min_edge_density = true) := by
  refine ⟨?_, ?_, ?_, ?_, ?_, ?_⟩
  · intro h
    simp only [is_blurry, easy_thresholds, medium_thresholds, hard_thresholds,
      decide_eq_true_eq] at h ⊢
    constructor <;> linarith
  · intro h
    simp only [is_low_resolution, easy_thresholds, medium_thresholds, hard_thresholds,
      Bool.or_eq_true, decide_eq_true_eq] at h ⊢
    omega
  · intro h
    simp only [is_low_contrast, easy_thresholds, medium_thresholds, hard_thresholds,
      decide_eq_true_eq] at h ⊢
    constructor <;> linarith
  · intro h
    simp only [has_glare, easy_thresholds, medium_thresholds, hard_thresholds,
      decide_eq_true_eq] at h ⊢
    have h245 : glare_ratio img 250 ≤ glare_ratio img 245 :=
      glare_ratio_anti img (by norm_num)
    have h235 : glare_ratio img 250 ≤ glare_ratio img 235 :=
      glare_ratio_anti img (by norm_num)
    constructor <;> linarith
  · intro h
    simp only [is_dark, easy_thresholds, medium_thresholds, hard_thresholds,
      decide_eq_true_eq] at h ⊢
    constructor <;> linarith
  · intro h
    simp only [is_low_edge_density, easy_thresholds, medium_thresholds, hard_thresholds,
      decide_eq_true_eq] at h ⊢
    constructor <;> linarith

/-- Witness for C8: a tiny all-dark image fails blur, resolution, contrast,
darkness and edge density under the lenient profile (hence under both
stricter profiles), and a fully saturated image fails glare under the
lenient profile (hence under both stricter profiles). -/
theorem profile_check_monotonicity_witness :
    (is_blurry imgDark2 medium_thresholds.blur_threshold = true ∧
      is_blurry imgDark2 hard_thresholds.blur_threshold = true) ∧
    (is_low_resolution imgDark2 medium_thresholds.min_width medium_thresholds.min_height = true ∧
      is_low_resolution imgDark2 hard_thresholds.min_width hard_thresholds.min_height = true) ∧
    (is_low_contrast imgDark2 medium_thresholds.min_contrast = true ∧
      is_low_contrast imgDark2 hard_thresholds.min_contrast = true) ∧
    (has_glare imgBright2 medium_thresholds.glare_threshold
        medium_thresholds.glare_brightness = true ∧
      has_glare imgBright2 hard_thresholds.glare_threshold
        hard_thresholds.glare_brightness = true) ∧
    (is_dark imgDark2 medium_thresholds.darkness_threshold = true ∧
      is_dark imgDark2 hard_thresholds.darkness_threshold = true) ∧
    (is_low_edge_density imgDark2 medium_thresholds.min_edge_density = true ∧
      is_low_edge_density imgDark2 hard_thresholds.min_edge_density = true) :=
  ⟨(profile_check_monotonicity imgDark2).1 (by decide),
    (profile_check_monotonicity imgDark2).2.1 (by decide),
    (profile_check_monotonicity imgDark2).2.2.1 (by decide),
    (profile_check_monotonicity imgBright2).2.2.2.1 (by with_unfolding_all decide),
    (profile_check_monotonicity imgDark2).2.2.2.2.1 (by decide),
    (profile_check_monotonicity imgDark2).2.2.2.2.2 (by with_unfolding_all decide)⟩
